import Mathlib

/-!
Shallow embedding of the book-tracker mobile client (src/App.js).

The component is a single controller over React state hooks:
books, title, author, year, description, editingId, loading.
Each handler is embedded as a pure function from its inputs (current form
state, request outcomes, the user's answer to the confirmation prompt) to the
ordered trace of effects it performs: state-setter calls, network requests,
and alert dialogs.  Folding the setter events over an application state gives
the state after the handler runs.  The asynchronous refresh that a successful
mutation triggers (a non-awaited fetchBooks() call) is recorded in the trace
as its getBooks request; the standalone fetchBooks embedding models the full
fetch including its outcome.
-/

namespace BookApp

/-- JS whitespace test used by String.prototype.trim. -/
def jsWs (c : Char) : Bool := c.isWhitespace

/-- Embedding of JS s.trim(): drop whitespace from both ends. -/
def jsTrim (s : String) : String :=
  ⟨((s.data.dropWhile jsWs).reverse.dropWhile jsWs).reverse⟩

/-- Value of a list of decimal digit characters. -/
def digitsVal (cs : List Char) : Nat :=
  cs.foldl (fun a c => a * 10 + (c.toNat - 48)) 0

/-- Embedding of JS parseInt(s, 10): skip leading whitespace, optional sign,
then the longest prefix of decimal digits; none models NaN. -/
def parseIntTen (s : String) : Option Int :=
  let cs := s.data.dropWhile jsWs
  match cs with
  | '-' :: rest =>
      let ds := rest.takeWhile Char.isDigit
      if ds.isEmpty then none else some (-(digitsVal ds : Int))
  | '+' :: rest =>
      let ds := rest.takeWhile Char.isDigit
      if ds.isEmpty then none else some ((digitsVal ds : Int))
  | _ =>
      let ds := cs.takeWhile Char.isDigit
      if ds.isEmpty then none else some ((digitsVal ds : Int))

/-- A book record as served by the API: year and description are optional. -/
structure Book where
  id : Nat
  title : String
  author : String
  year : Option Int
  description : Option String
deriving Repr, DecidableEq

/-- The year member of a submit payload: undef models the field set to
undefined (empty year input), nan models parseInt returning NaN. -/
inductive YearField where
  | undef : YearField
  | nan : YearField
  | int : Int → YearField
deriving Repr, DecidableEq

/-- The body built by handleSubmit. -/
structure Payload where
  title : String
  author : String
  year : YearField
  description : String
deriving Repr, DecidableEq

/-- The form-related state hooks. -/
structure FormState where
  title : String
  author : String
  year : String
  description : String
  editingId : Option Nat
deriving Repr, DecidableEq

/-- All state hooks of the component. -/
structure AppState where
  books : List Book
  form : FormState
  loading : Bool
deriving Repr, DecidableEq

/-- Network requests the controller can issue. -/
inductive Request where
  | getBooks : Request
  | postBook : Payload → Request
  | putBook : Nat → Payload → Request
  | deleteBook : Nat → Request
deriving Repr, DecidableEq

/-- Effects a handler performs, in program order: setter calls on the state
hooks, network requests, alert dialogs, and the delete confirmation prompt. -/
inductive Event where
  | setBooks : List Book → Event
  | setTitle : String → Event
  | setAuthor : String → Event
  | setYear : String → Event
  | setDescription : String → Event
  | setEditingId : Option Nat → Event
  | setLoading : Bool → Event
  | request : Request → Event
  | alert : String → String → Event
  | confirmPrompt : String → String → Event
deriving Repr, DecidableEq

/-- Effect of one event on the component state. -/
def applyEvent (s : AppState) : Event → AppState
  | .setBooks bs => { s with books := bs }
  | .setTitle v => { s with form := { s.form with title := v } }
  | .setAuthor v => { s with form := { s.form with author := v } }
  | .setYear v => { s with form := { s.form with year := v } }
  | .setDescription v => { s with form := { s.form with description := v } }
  | .setEditingId v => { s with form := { s.form with editingId := v } }
  | .setLoading b => { s with loading := b }
  | .request _ => s
  | .alert _ _ => s
  | .confirmPrompt _ _ => s

/-- State after a handler trace runs from state s. -/
def run (s : AppState) (t : List Event) : AppState :=
  t.foldl applyEvent s

/-- The network requests of a trace, in order. -/
def requestsOf (t : List Event) : List Request :=
  t.filterMap fun e => match e with
    | .request r => some r
    | _ => none

/-- The alert dialogs of a trace, as title-message pairs, in order. -/
def alertsOf (t : List Event) : List (String × String) :=
  t.filterMap fun e => match e with
    | .alert k m => some (k, m)
    | _ => none

/-- The values written to the loading flag by a trace, in order. -/
def loadingWritesOf (t : List Event) : List Bool :=
  t.filterMap fun e => match e with
    | .setLoading b => some b
    | _ => none

/-- Events relevant to the busy-flag discipline: loading writes and requests. -/
def isNetEvent (e : Event) : Bool :=
  match e with
  | .setLoading _ => true
  | .request _ => true
  | _ => false

/-- The loading writes and requests of a trace, in order. -/
def netEvents (t : List Event) : List Event :=
  t.filter isNetEvent

/-- JS truthiness of the editingId state (null or a number id). -/
def idTruthy : Option Nat → Bool
  | none => false
  | some n => n != 0

/-- JS truthiness of a book's optional numeric year member. -/
def yearTruthy : Option Int → Bool
  | none => false
  | some n => n != 0

/-- fetchBooks: sets loading, issues GET /books; on success replaces the
cached list, on failure shows one error alert; finally clears loading.
The outcome argument is the response list, none modelling a rejection. -/
def fetchBooks (outcome : Option (List Book)) : List Event :=
  [.setLoading true, .request .getBooks] ++
  (match outcome with
   | some bs => [.setBooks bs]
   | none => [.alert "Error" "Failed to fetch books. Check your API URL and server connection."]) ++
  [.setLoading false]

/-- resetForm: clears the four text fields and editingId. -/
def resetForm : List Event :=
  [.setTitle "", .setAuthor "", .setYear "", .setDescription "", .setEditingId none]

/-- The payload handleSubmit builds from the form fields. -/
def buildData (f : FormState) : Payload :=
  { title := jsTrim f.title
    author := jsTrim f.author
    year := if f.year = "" then .undef
            else match parseIntTen f.year with
                 | some n => .int n
                 | none => .nan
    description := jsTrim f.description }

/-- The local validation of handleSubmit: trimmed title and author non-empty. -/
def formValid (f : FormState) : Bool :=
  !(jsTrim f.title == "") && !(jsTrim f.author == "")

/-- The mutation request handleSubmit issues: PUT when editingId is truthy,
POST otherwise. -/
def submitRequest (f : FormState) : Request :=
  if idTruthy f.editingId then .putBook (f.editingId.getD 0) (buildData f)
  else .postBook (buildData f)

/-- Success alert message of handleSubmit. -/
def submitSuccessMsg (f : FormState) : String :=
  if idTruthy f.editingId then "Book updated successfully!" else "Book added successfully!"

/-- Failure alert message of handleSubmit. -/
def submitFailMsg (f : FormState) : String :=
  if idTruthy f.editingId then "Failed to update book. Check your network and API."
  else "Failed to add book. Check your network and API."

/-- handleSubmit: validates, then issues the mutation; on success shows a
success alert, triggers a refresh (the non-awaited fetchBooks call, recorded
as its GET request) and resets the form; on failure shows an error alert;
finally clears loading.  ok is the outcome of the mutation request. -/
def handleSubmit (f : FormState) (ok : Bool) : List Event :=
  if !(formValid f) then
    [.alert "Validation" "Title and author are required."]
  else
    [.setLoading true, .request (submitRequest f)] ++
    (if ok then
       [.alert "Success" (submitSuccessMsg f), .request .getBooks] ++ resetForm
     else
       [.alert "Error" (submitFailMsg f)]) ++
    [.setLoading false]

/-- handleDelete: shows the confirmation prompt; on Cancel nothing else
happens; on Delete issues DELETE /books/:id, then on success shows a success
alert and triggers a refresh, on failure shows an error alert, and finally
clears loading. -/
def handleDelete (id : Nat) (confirmed : Bool) (ok : Bool) : List Event :=
  [.confirmPrompt "Delete Book" "Are you sure you want to delete this book?"] ++
  (if confirmed then
     [.setLoading true, .request (.deleteBook id)] ++
     (if ok then [.alert "Success" "Book deleted successfully!", .request .getBooks]
      else [.alert "Error" "Failed to delete book. Check your network and API."]) ++
     [.setLoading false]
   else [])

/-- startEdit: copies the book into the form state; the year field uses JS
truthiness of the numeric year, the description field JS or-default. -/
def startEdit (b : Book) : List Event :=
  [.setEditingId (some b.id), .setTitle b.title, .setAuthor b.author,
   .setYear (if yearTruthy b.year then toString (b.year.getD 0) else ""),
   .setDescription (b.description.getD "")]

/-- The empty form state. -/
def emptyForm : FormState :=
  { title := "", author := "", year := "", description := "", editingId := none }

/-- A string with no leading and no trailing whitespace. -/
def noEdgeWs (s : String) : Bool :=
  (match s.data.head? with
   | none => true
   | some c => !jsWs c) &&
  (match s.data.getLast? with
   | none => true
   | some c => !jsWs c)

/-- Non-empty and trimmed, the data-model invariant on title and author. -/
def isTrimmedNonempty (s : String) : Bool :=
  (!(s == "")) && noEdgeWs s

/-- The spec's reading of the payload invariant: title and author non-empty
trimmed strings, and the year member, when present, an integer. -/
def payloadInvariantHolds (p : Payload) : Bool :=
  isTrimmedNonempty p.title && isTrimmedNonempty p.author &&
  (match p.year with
   | .undef => true
   | .nan => false
   | .int _ => true)

/-- The spec's reading of copying a book's optional year into the text
field: its decimal string when present, empty otherwise. -/
def optYearToString : Option Int → String
  | none => ""
  | some n => toString n

def isPost : Request → Bool
  | .postBook _ => true
  | _ => false

def isPut : Request → Bool
  | .putBook _ _ => true
  | _ => false

def isDelete : Request → Bool
  | .deleteBook _ => true
  | _ => false

/-- Sample create-mode form matching the spec's worked example. -/
def duneForm : FormState :=
  { title := "Dune", author := "Herbert", year := "1965", description := "", editingId := none }

/-- Sample edit-mode form. -/
def editForm : FormState :=
  { title := "Dune", author := "Herbert", year := "1965", description := "", editingId := some 3 }

/-- A sample non-empty cached list. -/
def sampleBooks : List Book :=
  [{ id := 1, title := "T", author := "A", year := some 1999, description := some "d" }]

/-- A sample application state in create mode. -/
def sampleState : AppState :=
  { books := sampleBooks, form := duneForm, loading := false }

/-- A sample application state in edit mode. -/
def editState : AppState :=
  { books := sampleBooks, form := editForm, loading := false }

/-- A sample state whose title is whitespace only, failing validation. -/
def blankTitleState : AppState :=
  { books := sampleBooks,
    form := { title := " ", author := "X", year := "", description := "", editingId := none },
    loading := false }

/-- The state of the component right after mount. -/
def init0 : AppState := { books := [], form := emptyForm, loading := false }

theorem head_dropWhile_false (p : Char → Bool) : ∀ (l : List Char) (c : Char),
    (l.dropWhile p).head? = some c → p c = false := by
  intro l
  induction l with
  | nil => intro c h; simp [List.dropWhile] at h
  | cons a t ih =>
      intro c h
      by_cases hp : p a
      · rw [List.dropWhile_cons_of_pos hp] at h
        exact ih c h
      · rw [List.dropWhile_cons_of_neg hp] at h
        simp at h
        subst h
        exact Bool.eq_false_iff.mpr hp

theorem getLast_suffix_eq (l m : List Char) (h : l <:+ m) (hne : l ≠ []) :
    l.getLast? = m.getLast? := by
  obtain ⟨u, rfl⟩ := h
  rw [List.getLast?_append_of_ne_nil]
  exact hne

theorem jsTrim_noEdge (s : String) : noEdgeWs (jsTrim s) = true := by
  unfold noEdgeWs jsTrim
  simp only [String.data]
  set A := s.data.dropWhile jsWs with hA
  set B := A.reverse.dropWhile jsWs with hB
  simp only [Bool.and_eq_true]
  constructor
  · cases hh : B.reverse.head? with
    | none => simp
    | some c =>
        have h1 : B.reverse.reverse.getLast? = B.reverse.head? := List.getLast?_reverse B.reverse
        rw [List.reverse_reverse] at h1
        have hgl : B.getLast? = some c := h1.trans hh
        have hne : B ≠ [] := by
          intro hnil
          rw [hnil] at hgl
          simp at hgl
        have h2 : B.getLast? = A.reverse.getLast? :=
          getLast_suffix_eq B A.reverse (List.dropWhile_suffix jsWs) hne
        have h3 : A.reverse.getLast? = A.head? := List.getLast?_reverse A
        have h4 : A.head? = some c := by
          rw [← h3, ← h2]
          exact hgl
        have h5 : jsWs c = false := head_dropWhile_false jsWs s.data c h4
        simp [h5]
  · cases hh : B.reverse.getLast? with
    | none => simp
    | some c =>
        have h1 : B.reverse.getLast? = B.head? := List.getLast?_reverse B
        have h2 : B.head? = some c := h1.symm.trans hh
        have h5 : jsWs c = false := head_dropWhile_false jsWs A.reverse c h2
        simp [h5]

/-- C1: a form whose trimmed title or trimmed author is empty makes submit
issue no request at all, show only the validation alert, and leave the whole
state (cached list, form fields, editingId, loading) unchanged. -/
theorem submit_invalid_no_request (s : AppState) (ok : Bool)
    (h : jsTrim s.form.title = "" ∨ jsTrim s.form.author = "") :
    requestsOf (handleSubmit s.form ok) = [] ∧
    alertsOf (handleSubmit s.form ok) = [("Validation", "Title and author are required.")] ∧
    run s (handleSubmit s.form ok) = s := by
  have hv : formValid s.form = false := by
    unfold formValid
    rcases h with h | h <;> simp [h]
  have ht : handleSubmit s.form ok = [Event.alert "Validation" "Title and author are required."] := by
    unfold handleSubmit
    rw [hv]
    rfl
  rw [ht]
  exact ⟨rfl, rfl, rfl⟩

theorem submit_invalid_no_request_w :
    (jsTrim blankTitleState.form.title = "" ∨ jsTrim blankTitleState.form.author = "") ∧
    (requestsOf (handleSubmit blankTitleState.form true) = [] ∧
     alertsOf (handleSubmit blankTitleState.form true) = [("Validation", "Title and author are required.")] ∧
     run blankTitleState (handleSubmit blankTitleState.form true) = blankTitleState) :=
  ⟨Or.inl (by decide), submit_invalid_no_request blankTitleState true (Or.inl (by decide))⟩

/-- C2: in create mode with title Dune, author Herbert, year 1965 and empty
description, submit sends exactly one POST whose body has title Dune, author
Herbert, integer year 1965 and empty description, whatever the outcome. -/
theorem submit_dune_post (ok : Bool) :
    (requestsOf (handleSubmit duneForm ok)).filter isPost =
      [Request.postBook
        { title := "Dune", author := "Herbert", year := YearField.int 1965, description := "" }] := by
  cases ok <;> decide

/-- C3: a validated submit whose request succeeds leaves the form empty with
editingId null and triggers the list refresh (a GET /books request). -/
theorem submit_success_resets (s : AppState) (h : formValid s.form = true) :
    (run s (handleSubmit s.form true)).form = emptyForm ∧
    Request.getBooks ∈ requestsOf (handleSubmit s.form true) := by
  have ht : handleSubmit s.form true =
      [Event.setLoading true, Event.request (submitRequest s.form),
       Event.alert "Success" (submitSuccessMsg s.form), Event.request Request.getBooks] ++
        resetForm ++ [Event.setLoading false] := by
    unfold handleSubmit
    rw [h]
    rfl
  rw [ht]
  constructor
  · rfl
  · show Request.getBooks ∈ [submitRequest s.form, Request.getBooks]
    simp

theorem submit_success_resets_w :
    formValid sampleState.form = true ∧
    ((run sampleState (handleSubmit sampleState.form true)).form = emptyForm ∧
     Request.getBooks ∈ requestsOf (handleSubmit sampleState.form true)) :=
  ⟨by decide, submit_success_resets sampleState (by decide)⟩

/-- C4 counterexample: the form title a, author b, year x passes validation,
but the payload it builds carries a NaN year, so the year member is present
and yet is no parsed integer. -/
theorem payload_year_nan_cex :
    formValid { title := "a", author := "b", year := "x", description := "", editingId := none } = true ∧
    payloadInvariantHolds
      (buildData { title := "a", author := "b", year := "x", description := "", editingId := none }) = false := by
  decide

/-- C4 amended: for every form passing validation the payload's title and
author are non-empty trimmed strings, and the year member is absent when the
year input is empty, the parsed integer when parseInt succeeds on it, and NaN
when the input is non-empty but unparseable. -/
theorem payload_invariant_amended (f : FormState) (h : formValid f = true) :
    isTrimmedNonempty (buildData f).title = true ∧
    isTrimmedNonempty (buildData f).author = true ∧
    (buildData f).year = (if f.year = "" then YearField.undef
      else match parseIntTen f.year with
           | some n => YearField.int n
           | none => YearField.nan) := by
  have hv := h
  unfold formValid at hv
  simp only [Bool.and_eq_true] at hv
  refine ⟨?_, ?_, rfl⟩
  · show ((!(jsTrim f.title == "")) && noEdgeWs (jsTrim f.title)) = true
    simp only [Bool.and_eq_true]
    exact ⟨hv.1, jsTrim_noEdge f.title⟩
  · show ((!(jsTrim f.author == "")) && noEdgeWs (jsTrim f.author)) = true
    simp only [Bool.and_eq_true]
    exact ⟨hv.2, jsTrim_noEdge f.author⟩

theorem payload_invariant_amended_w :
    formValid duneForm = true ∧
    (isTrimmedNonempty (buildData duneForm).title = true ∧
     isTrimmedNonempty (buildData duneForm).author = true ∧
     (buildData duneForm).year = (if duneForm.year = "" then YearField.undef
       else match parseIntTen duneForm.year with
            | some n => YearField.int n
            | none => YearField.nan)) :=
  ⟨by decide, payload_invariant_amended duneForm (by decide)⟩

/-- C5 counterexample: a book whose year is 0 is not copied faithfully by
startEdit: the year text field becomes empty instead of the string 0, because
the source tests the numeric year for JS truthiness. -/
theorem startEdit_year_zero_cex :
    (run init0 (startEdit { id := 7, title := "T", author := "A", year := some 0, description := none })).form.year ≠
      optYearToString (some 0) := by
  decide

/-- C5 amended: startEdit sets editingId to the book's id, copies title and
author verbatim, sets the year field to the decimal string of the year when
the year is present and nonzero and to the empty string otherwise, and sets
the description field to the description when present, empty otherwise. -/
theorem startEdit_copies (s : AppState) (b : Book) :
    (run s (startEdit b)).form.editingId = some b.id ∧
    (run s (startEdit b)).form.title = b.title ∧
    (run s (startEdit b)).form.author = b.author ∧
    (run s (startEdit b)).form.year =
      (if yearTruthy b.year then toString (b.year.getD 0) else "") ∧
    (run s (startEdit b)).form.description = b.description.getD "" :=
  ⟨rfl, rfl, rfl, rfl, rfl⟩

/-- C6: a failed fetch leaves the cached list untouched, shows exactly one
error alert, and writes the busy flag true then false, ending cleared. -/
theorem fetch_failure_keeps_cache (s : AppState) :
    (run s (fetchBooks none)).books = s.books ∧
    (run s (fetchBooks none)).loading = false ∧
    alertsOf (fetchBooks none) =
      [("Error", "Failed to fetch books. Check your API URL and server connection.")] ∧
    loadingWritesOf (fetchBooks none) = [true, false] :=
  ⟨rfl, rfl, rfl, rfl⟩

/-- C7: handleDelete always asks for confirmation first; declining issues no
request and changes nothing, confirming issues exactly one DELETE for the id,
and a confirmed successful delete triggers the list refresh. -/
theorem delete_confirm_flow (s : AppState) (id : Nat) (ok : Bool) :
    handleDelete id false ok =
      [Event.confirmPrompt "Delete Book" "Are you sure you want to delete this book?"] ∧
    requestsOf (handleDelete id false ok) = [] ∧
    run s (handleDelete id false ok) = s ∧
    (handleDelete id true ok).head? =
      some (Event.confirmPrompt "Delete Book" "Are you sure you want to delete this book?") ∧
    (requestsOf (handleDelete id true ok)).filter isDelete = [Request.deleteBook id] ∧
    Request.getBooks ∈ requestsOf (handleDelete id true true) := by
  refine ⟨rfl, rfl, rfl, ?_, ?_, ?_⟩
  · cases ok <;> rfl
  · cases ok <;> rfl
  · show Request.getBooks ∈ [Request.deleteBook id, Request.getBooks]
    simp

/-- C8: startEdit on any book followed by resetForm leaves the form state
empty: all four text fields empty and editingId null. -/
theorem startEdit_then_reset (s : AppState) (b : Book) :
    (run s (startEdit b ++ resetForm)).form = emptyForm := rfl

/-- C9: a validated submit whose request fails keeps the form fields,
editingId and the cached list exactly as before (only loading is cleared),
issues no refresh, and shows only the error alert for the attempted action. -/
theorem submit_failure_preserves (s : AppState) (h : formValid s.form = true) :
    run s (handleSubmit s.form false) = { s with loading := false } ∧
    Request.getBooks ∉ requestsOf (handleSubmit s.form false) ∧
    alertsOf (handleSubmit s.form false) = [("Error", submitFailMsg s.form)] := by
  have ht : handleSubmit s.form false =
      [Event.setLoading true, Event.request (submitRequest s.form),
       Event.alert "Error" (submitFailMsg s.form), Event.setLoading false] := by
    unfold handleSubmit
    rw [h]
    rfl
  rw [ht]
  refine ⟨rfl, ?_, rfl⟩
  intro hm
  rw [show requestsOf
      [Event.setLoading true, Event.request (submitRequest s.form),
       Event.alert "Error" (submitFailMsg s.form), Event.setLoading false] =
      [submitRequest s.form] from rfl] at hm
  have he : Request.getBooks = submitRequest s.form := by simpa using hm
  unfold submitRequest at he
  by_cases hid : idTruthy s.form.editingId <;> simp [hid] at he

theorem submit_failure_preserves_w :
    formValid editState.form = true ∧
    (run editState (handleSubmit editState.form false) = { editState with loading := false } ∧
     Request.getBooks ∉ requestsOf (handleSubmit editState.form false) ∧
     alertsOf (handleSubmit editState.form false) = [("Error", submitFailMsg editState.form)]) :=
  ⟨by decide, submit_failure_preserves editState (by decide)⟩

/-- C10: every request-issuing run of fetchBooks, validated handleSubmit and
confirmed handleDelete writes loading true before its requests and loading
false as its last busy-flag action, while a submit failing validation never
touches the loading flag and issues no request. -/
theorem loading_bracket (f g : FormState) (outcome : Option (List Book)) (id : Nat)
    (hf : formValid f = true) (hg : formValid g = false) :
    netEvents (fetchBooks outcome) =
      [Event.setLoading true, Event.request Request.getBooks, Event.setLoading false] ∧
    netEvents (handleSubmit f true) =
      [Event.setLoading true, Event.request (submitRequest f),
       Event.request Request.getBooks, Event.setLoading false] ∧
    netEvents (handleSubmit f false) =
      [Event.setLoading true, Event.request (submitRequest f), Event.setLoading false] ∧
    netEvents (handleDelete id true true) =
      [Event.setLoading true, Event.request (Request.deleteBook id),
       Event.request Request.getBooks, Event.setLoading false] ∧
    netEvents (handleDelete id true false) =
      [Event.setLoading true, Event.request (Request.deleteBook id), Event.setLoading false] ∧
    loadingWritesOf (handleSubmit g true) = [] ∧
    loadingWritesOf (handleSubmit g false) = [] ∧
    requestsOf (handleSubmit g true) = [] ∧
    requestsOf (handleSubmit g false) = [] := by
  have ht1 : handleSubmit f true =
      [Event.setLoading true, Event.request (submitRequest f),
       Event.alert "Success" (submitSuccessMsg f), Event.request Request.getBooks] ++
        resetForm ++ [Event.setLoading false] := by
    unfold handleSubmit
    rw [hf]
    rfl
  have ht2 : handleSubmit f false =
      [Event.setLoading true, Event.request (submitRequest f),
       Event.alert "Error" (submitFailMsg f), Event.setLoading false] := by
    unfold handleSubmit
    rw [hf]
    rfl
  have hg1 : handleSubmit g true = [Event.alert "Validation" "Title and author are required."] := by
    unfold handleSubmit
    rw [hg]
    rfl
  have hg2 : handleSubmit g false = [Event.alert "Validation" "Title and author are required."] := by
    unfold handleSubmit
    rw [hg]
    rfl
  refine ⟨?_, ?_, ?_, rfl, rfl, ?_, ?_, ?_, ?_⟩
  · cases outcome <;> rfl
  · rw [ht1]
    rfl
  · rw [ht2]
    rfl
  · rw [hg1]
    rfl
  · rw [hg2]
    rfl
  · rw [hg1]
    rfl
  · rw [hg2]
    rfl

theorem loading_bracket_w :
    formValid duneForm = true ∧ formValid emptyForm = false ∧
    (netEvents (fetchBooks none) =
       [Event.setLoading true, Event.request Request.getBooks, Event.setLoading false] ∧
     netEvents (handleSubmit duneForm true) =
       [Event.setLoading true, Event.request (submitRequest duneForm),
        Event.request Request.getBooks, Event.setLoading false] ∧
     netEvents (handleSubmit duneForm false) =
       [Event.setLoading true, Event.request (submitRequest duneForm), Event.setLoading false] ∧
     netEvents (handleDelete 5 true true) =
       [Event.setLoading true, Event.request (Request.deleteBook 5),
        Event.request Request.getBooks, Event.setLoading false] ∧
     netEvents (handleDelete 5 true false) =
       [Event.setLoading true, Event.request (Request.deleteBook 5), Event.setLoading false] ∧
     loadingWritesOf (handleSubmit emptyForm true) = [] ∧
     loadingWritesOf (handleSubmit emptyForm false) = [] ∧
     requestsOf (handleSubmit emptyForm true) = [] ∧
     requestsOf (handleSubmit emptyForm false) = []) :=
  ⟨by decide, by decide, loading_bracket duneForm emptyForm none 5 (by decide) (by decide)⟩

end BookApp
